import Mathlib

/-!
Verification development for the pump-bot repository.

The repository ships a React front end (src/App.jsx) together with design
documents describing an autonomous trading pipeline (scoring engine, risk
manager, wallet manager, execution engine, position tracker).  The trading
core itself (the src/trading, src/wallets, src/data modules listed in
project_structure.txt) is not part of the checked-in sources, so those
components are modelled here from the specification, while the HomePage and
Dashboard components are embedded directly from src/App.jsx.

All quantities are rationals; base-unit sizes, prices and scores are ℚ and
timestamps are Nat.
-/

namespace PumpBot

/-- Modelled from the spec: strategyTag ∈ \x7bsnipe, longterm\x7d (§3 Signal). -/
inductive StrategyTag where
  | snipe
  | longterm
deriving DecidableEq, Repr

/-- Modelled from the spec: action ∈ \x7bbuy, sell, avoid\x7d (§3 Signal). -/
inductive TradeAction where
  | buy
  | sell
  | avoid
deriving DecidableEq, Repr

/-- Modelled from the spec: protectionLevel ∈ \x7bnone, standard, high\x7d (§3 Signal). -/
inductive ProtectionLevel where
  | none
  | standard
  | high
deriving DecidableEq, Repr

/-- Modelled from the spec: §3 Signal record, immutable once handed to the Risk Manager. -/
structure Signal where
  id : Nat
  mintId : Nat
  action : TradeAction
  targetSizeBaseUnits : ℚ
  confidence : ℚ
  protectionLevel : ProtectionLevel
  strategyTag : StrategyTag
  createdAt : Nat
deriving DecidableEq, Repr

/-- Modelled from the spec: §3 RiskDecision, produced once per Signal, the sole gate
for execution.  The reason field carries the rejection reason strings of §4.3. -/
structure RiskDecision where
  signalId : Nat
  approved : Bool
  adjustedSize : ℚ
  reason : String
deriving DecidableEq, Repr

/-- Modelled from the spec: §3 PortfolioRiskState, process-wide single instance owned
by the Risk Manager.  portfolioValue is carried here because check 4 of §4.3 compares
per-mint exposure against a fraction of portfolio value. -/
structure PortfolioRiskState where
  dailyRealizedPnl : ℚ
  openPositionCount : Nat
  concentrationByMint : List (Nat × ℚ)
  exposureByTag : List (StrategyTag × ℚ)
  consecutiveLossCount : Nat
  circuitBreakerTripped : Bool
  drawdownFromPeak : ℚ
  portfolioValue : ℚ
deriving DecidableEq, Repr

/-- Modelled from the spec: the configured limits of §4.3 (daily loss limit, max
concurrent positions, per-mint concentration fraction, correlation ceiling,
consecutive-loss breaker threshold, max drawdown, base position-size limit). -/
structure RiskConfig where
  dailyLossLimit : ℚ
  maxOpenPositions : Nat
  maxPerMintFraction : ℚ
  correlationCeiling : ℚ
  consecutiveLossThreshold : Nat
  maxDrawdownPercent : ℚ
  baseSizeLimit : ℚ
deriving DecidableEq, Repr

/-- Exposure currently reserved for one mint (concentrationByMint lookup, zero default). -/
def mintExposure (st : PortfolioRiskState) (m : Nat) : ℚ :=
  (st.concentrationByMint.lookup m).getD 0

/-- Aggregate exposure of the strategyTag cluster (check 5 of §4.3). -/
def tagExposure (st : PortfolioRiskState) (t : StrategyTag) : ℚ :=
  (st.exposureByTag.lookup t).getD 0

/-- Modelled from the spec: check 6 of §4.3, a size limit that shrinks monotonically as
drawdownFromPeak grows (dynamic de-risking). -/
def dynamicSizeLimit (cfg : RiskConfig) (st : PortfolioRiskState) : ℚ :=
  cfg.baseSizeLimit * max 0 (1 - st.drawdownFromPeak / cfg.maxDrawdownPercent)

/-- A rejecting RiskDecision with the given reason string. -/
def rejectDecision (sig : Signal) (r : String) : RiskDecision :=
  { signalId := sig.id, approved := false, adjustedSize := 0, reason := r }

/-- Latch the circuit breaker. -/
def tripBreaker (st : PortfolioRiskState) : PortfolioRiskState :=
  { st with circuitBreakerTripped := true }

/-- Modelled from the spec: any approval updates PortfolioRiskState optimistically
(reserves capacity) before returning (§4.3). -/
def reserveCapacity (st : PortfolioRiskState) (m : Nat) (t : StrategyTag) (size : ℚ) :
    PortfolioRiskState :=
  { st with
    openPositionCount := st.openPositionCount + 1
    concentrationByMint :=
      (m, mintExposure st m + size) :: st.concentrationByMint.filter (fun p => p.1 ≠ m)
    exposureByTag :=
      (t, tagExposure st t + size) :: st.exposureByTag.filter (fun p => p.1 ≠ t) }

/-- Modelled from the spec: §4.3 evaluate(Signal) → RiskDecision, checks in order,
short-circuiting on first failure: circuit breaker, daily loss limit (which may trip
the breaker), max concurrent open positions, per-mint concentration, correlation
ceiling, then position sizing with final size = min(requested, dynamic limit). -/
def evaluate (cfg : RiskConfig) (st : PortfolioRiskState) (sig : Signal) :
    RiskDecision × PortfolioRiskState :=
  if st.circuitBreakerTripped then
    (rejectDecision sig "circuit_breaker", st)
  else if st.dailyRealizedPnl ≤ -cfg.dailyLossLimit then
    (rejectDecision sig "daily_loss_limit", tripBreaker st)
  else if cfg.maxOpenPositions ≤ st.openPositionCount then
    (rejectDecision sig "max_open_positions", st)
  else if cfg.maxPerMintFraction * st.portfolioValue <
      mintExposure st sig.mintId + sig.targetSizeBaseUnits then
    (rejectDecision sig "concentration_limit", st)
  else if cfg.correlationCeiling < tagExposure st sig.strategyTag + sig.targetSizeBaseUnits then
    (rejectDecision sig "correlation_limit", st)
  else
    let size := min sig.targetSizeBaseUnits (dynamicSizeLimit cfg st)
    ({ signalId := sig.id, approved := true, adjustedSize := size, reason := "approved" },
      reserveCapacity st sig.mintId sig.strategyTag size)

/-- Modelled from the spec: §4.6/§4.3 feedback — a Position close folds realized PnL
into PortfolioRiskState (daily PnL, consecutive-loss counter, drawdown-from-peak), and
the breaker trips automatically on consecutiveLossCount ≥ N or drawdown ≥ max. -/
def recordPositionClose (cfg : RiskConfig) (st : PortfolioRiskState) (pnl : ℚ) :
    PortfolioRiskState :=
  let losses := if pnl < 0 then st.consecutiveLossCount + 1 else 0
  let dd := max 0 (st.drawdownFromPeak - pnl)
  { st with
    dailyRealizedPnl := st.dailyRealizedPnl + pnl
    openPositionCount := st.openPositionCount - 1
    consecutiveLossCount := losses
    drawdownFromPeak := dd
    circuitBreakerTripped :=
      st.circuitBreakerTripped || decide (cfg.consecutiveLossThreshold ≤ losses) ||
        decide (cfg.maxDrawdownPercent ≤ dd) }

/-- Modelled from the spec: §6 control surface, the idempotent operator reset that is
the only way to clear a tripped breaker. -/
def manualResetCircuitBreaker (st : PortfolioRiskState) : PortfolioRiskState :=
  { st with circuitBreakerTripped := false, consecutiveLossCount := 0 }

/-- The operations that touch PortfolioRiskState. -/
inductive RiskOp where
  | evalSignal (sig : Signal)
  | closePosition (pnl : ℚ)
  | manualReset
deriving DecidableEq

def applyRiskOp (cfg : RiskConfig) (st : PortfolioRiskState) : RiskOp → PortfolioRiskState
  | .evalSignal sig => (evaluate cfg st sig).2
  | .closePosition pnl => recordPositionClose cfg st pnl
  | .manualReset => manualResetCircuitBreaker st

def runRiskOps (cfg : RiskConfig) (st : PortfolioRiskState) (ops : List RiskOp) :
    PortfolioRiskState :=
  ops.foldl (applyRiskOp cfg) st

/-- A clean initial portfolio state. -/
def cleanRiskState : PortfolioRiskState :=
  { dailyRealizedPnl := 0, openPositionCount := 0, concentrationByMint := [],
    exposureByTag := [], consecutiveLossCount := 0, circuitBreakerTripped := false,
    drawdownFromPeak := 0, portfolioValue := 100 }

/-- A demonstration configuration with a consecutive-loss threshold of 5. -/
def demoRiskConfig : RiskConfig :=
  { dailyLossLimit := 100, maxOpenPositions := 10, maxPerMintFraction := 1/10,
    correlationCeiling := 50, consecutiveLossThreshold := 5, maxDrawdownPercent := 20,
    baseSizeLimit := 5 }

/-- A demonstration buy signal. -/
def demoSignal : Signal :=
  { id := 1, mintId := 7, action := .buy, targetSizeBaseUnits := 1, confidence := 8,
    protectionLevel := .standard, strategyTag := .snipe, createdAt := 0 }

/-- Modelled from the spec: §3 TokenEvent, immutable once received.  metadataQuality
and initialLiquidity may be unavailable (missing factor data). -/
structure TokenEvent where
  mintId : Nat
  creator : Nat
  createdAt : Nat
  metadataQuality : Option ℚ
  initialLiquidity : Option ℚ
  source : String
deriving DecidableEq, Repr

/-- Modelled from the spec: §3 MarketSnapshot, ephemeral point-in-time data. -/
structure MarketSnapshot where
  mintId : Nat
  price : ℚ
  depthAtLevels : List ℚ
  bondingCurveProgress : Option ℚ
  whaleSentiment : Option ℚ
  observedAt : Nat
deriving DecidableEq, Repr

/-- Modelled from the spec: §4.1 per-strategyTag factor weights (creator history,
liquidity setup, community signals, bonding-curve progress). -/
structure FactorWeights where
  creatorHistory : ℚ
  liquiditySetup : ℚ
  communitySignals : ℚ
  bondingCurve : ℚ
deriving DecidableEq, Repr

/-- The sum of the four factor weights. -/
def FactorWeights.total (w : FactorWeights) : ℚ :=
  w.creatorHistory + w.liquiditySetup + w.communitySignals + w.bondingCurve

/-- Modelled from the spec: weights must sum to 1.0 ± tolerance 0.01 (§4.1). -/
def weightsValid (w : FactorWeights) : Prop :=
  |w.total - 1| ≤ 1/100

instance (w : FactorWeights) : Decidable (weightsValid w) := by
  unfold weightsValid
  infer_instance

/-- Modelled from the spec: §9 explicit validated configuration per strategyTag.  The
creatorRegistry stands for the external creator-history data consulted by scoring. -/
structure ScoringConfig where
  snipeWeights : FactorWeights
  longtermWeights : FactorWeights
  creatorRegistry : List (Nat × ℚ)
deriving DecidableEq, Repr

def weightsFor (cfg : ScoringConfig) : StrategyTag → FactorWeights
  | .snipe => cfg.snipeWeights
  | .longterm => cfg.longtermWeights

/-- The raw (possibly missing) factor inputs gathered for one token. -/
structure FactorData where
  creatorHistory : Option ℚ
  liquiditySetup : Option ℚ
  communitySignals : Option ℚ
  bondingCurve : Option ℚ
deriving DecidableEq, Repr

/-- Modelled from the spec: §4.1 input is TokenEvent + optional MarketSnapshot; each
factor source may be unavailable. -/
def gatherFactors (cfg : ScoringConfig) (ev : TokenEvent) (snap : Option MarketSnapshot) :
    FactorData :=
  { creatorHistory := cfg.creatorRegistry.lookup ev.creator
    liquiditySetup := ev.initialLiquidity
    communitySignals := ev.metadataQuality
    bondingCurve := snap.bind (fun s => s.bondingCurveProgress) }

/-- One entry of factorBreakdown: normalized value, weight, degraded flag. -/
structure FactorEntry where
  value : ℚ
  weight : ℚ
  degraded : Bool
deriving DecidableEq, Repr

/-- Modelled from the spec: §3 Score.factorBreakdown over the four documented factors. -/
structure FactorBreakdown where
  creatorHistory : FactorEntry
  liquiditySetup : FactorEntry
  communitySignals : FactorEntry
  bondingCurve : FactorEntry
deriving DecidableEq, Repr

/-- Normalize a raw factor value to the [0,10] band (§4.1). -/
def clampScore (x : ℚ) : ℚ :=
  max 0 (min x 10)

/-- Modelled from the spec: missing factor data degrades that factor to the neutral
midpoint 5.0 and flags it as degraded rather than failing the score (§4.1). -/
def evalFactor (w : ℚ) (raw : Option ℚ) : FactorEntry :=
  match raw with
  | some v => { value := clampScore v, weight := w, degraded := false }
  | none => { value := 5, weight := w, degraded := true }

/-- Modelled from the spec: §3 Score, derived and recomputable, never mutated. -/
structure Score where
  mintId : Nat
  compositeValue : ℚ
  factorBreakdown : FactorBreakdown
  computedAt : Nat
deriving DecidableEq, Repr

/-- Modelled from the spec: §7 ConfigurationError, fatal at startup on bad weights. -/
inductive ConfigurationError where
  | badWeights (total : ℚ)
deriving DecidableEq, Repr

/-- Modelled from the spec: §4.1 Scoring Engine.  Validates that the weights for the
strategyTag sum to 1.0 ± 0.01 (ConfigurationError otherwise), normalizes every factor
to [0,10], degrades missing factors to 5.0, and returns the weighted composite. -/
def scoreToken (cfg : ScoringConfig) (tag : StrategyTag) (ev : TokenEvent)
    (snap : Option MarketSnapshot) : Except ConfigurationError Score :=
  let w := weightsFor cfg tag
  if weightsValid w then
    let fd := gatherFactors cfg ev snap
    let fb : FactorBreakdown :=
      { creatorHistory := evalFactor w.creatorHistory fd.creatorHistory
        liquiditySetup := evalFactor w.liquiditySetup fd.liquiditySetup
        communitySignals := evalFactor w.communitySignals fd.communitySignals
        bondingCurve := evalFactor w.bondingCurve fd.bondingCurve }
    .ok
      { mintId := ev.mintId
        compositeValue := clampScore
          (fb.creatorHistory.weight * fb.creatorHistory.value +
            fb.liquiditySetup.weight * fb.liquiditySetup.value +
            fb.communitySignals.weight * fb.communitySignals.value +
            fb.bondingCurve.weight * fb.bondingCurve.value)
        factorBreakdown := fb
        computedAt := (snap.map (fun s => s.observedAt)).getD ev.createdAt }
  else
    .error (.badWeights w.total)

/-- Modelled from the spec: §4.6 Position state machine states. -/
inductive PositionState where
  | pending
  | «open»
  | partiallyExited
  | closed
deriving DecidableEq, Repr

/-- One take-profit tier: trigger price and the fraction of the remaining size sold
when the tier is crossed. -/
structure TakeProfitTier where
  price : ℚ
  fraction : ℚ
deriving DecidableEq, Repr

/-- Modelled from the spec: §3 Position, mutated only by the Position Tracker. -/
structure Position where
  id : Nat
  mintId : Nat
  walletId : Nat
  strategyTag : StrategyTag
  entryPrice : ℚ
  sizeBaseUnits : ℚ
  remainingSizeBaseUnits : ℚ
  state : PositionState
  stopLossPrice : ℚ
  takeProfitLevels : List TakeProfitTier
  openedAt : Nat
  closedAt : Option Nat
deriving DecidableEq, Repr

/-- Modelled from the spec: Position Tracker configuration — trailing-stop gap below
the observed price and the per-strategyTag maximum hold duration (§4.6). -/
structure TrackerConfig where
  trailingGap : ℚ
  maxHoldSnipe : Nat
  maxHoldLongterm : Nat
deriving DecidableEq, Repr

def maxHoldFor (cfg : TrackerConfig) : StrategyTag → Nat
  | .snipe => cfg.maxHoldSnipe
  | .longterm => cfg.maxHoldLongterm

/-- A Position is live while Open or PartiallyExited. -/
def Position.isLive (p : Position) : Bool :=
  decide (p.state = PositionState.«open» ∨ p.state = PositionState.partiallyExited)

/-- Close a Position: terminal state, remaining size fully sold, closedAt set. -/
def closeOut (p : Position) (t : Nat) : Position :=
  { p with state := .closed, remainingSizeBaseUnits := 0, closedAt := some t }

/-- Modelled from the spec: §4.6 lower-priority exit checks — trailing stop update
(if in profit, raise stopLossPrice, never lower it) and then timeout exit. -/
def trailingOrTimeout (cfg : TrackerConfig) (p : Position) (snap : MarketSnapshot) :
    Position :=
  if p.entryPrice < snap.price then
    { p with stopLossPrice := max p.stopLossPrice (snap.price * (1 - cfg.trailingGap)) }
  else if maxHoldFor cfg p.strategyTag ≤ snap.observedAt - p.openedAt then
    closeOut p snap.observedAt
  else
    p

/-- Modelled from the spec: §4.6 — on each new MarketSnapshot for the mint, a live
Position evaluates exit conditions in fixed priority: hard stop-loss, take-profit tier
crossed (sell the configured fraction, advance to the next tier), trailing stop
update, timeout. -/
def processSnapshot (cfg : TrackerConfig) (p : Position) (snap : MarketSnapshot) :
    Position :=
  if p.isLive then
    if snap.price ≤ p.stopLossPrice then
      closeOut p snap.observedAt
    else
      match p.takeProfitLevels with
      | tier :: rest =>
        if tier.price ≤ snap.price then
          { p with
            state := .partiallyExited
            remainingSizeBaseUnits :=
              p.remainingSizeBaseUnits - tier.fraction * p.remainingSizeBaseUnits
            takeProfitLevels := rest }
        else
          trailingOrTimeout cfg p snap
      | [] => trailingOrTimeout cfg p snap
  else
    p

/-- Feed a sequence of MarketSnapshots to one Position. -/
def trackPosition (cfg : TrackerConfig) (p : Position) (snaps : List MarketSnapshot) :
    Position :=
  snaps.foldl (processSnapshot cfg) p

/-- Modelled from the spec: §3 Wallet roles. -/
inductive WalletRole where
  | sniping
  | longterm
  | utility
  | reserve
deriving DecidableEq, Repr

/-- Modelled from the spec: §3 Wallet record. -/
structure Wallet where
  id : Nat
  role : WalletRole
  balance : ℚ
  reputationScore : ℚ
  lastUsedAt : Nat
  dailyTxCount : Nat
  cooldownUntil : Option Nat
deriving DecidableEq, Repr

/-- Modelled from the spec: §4.4 Wallet Manager limits — fee buffer, per-role daily
transaction caps and the longterm inter-transaction spacing. -/
structure WalletConfig where
  feeBuffer : ℚ
  capSniping : Nat
  capLongterm : Nat
  capUtility : Nat
  capReserve : Nat
  minSpacingLongterm : Nat
deriving DecidableEq, Repr

def roleCap (cfg : WalletConfig) : WalletRole → Nat
  | .sniping => cfg.capSniping
  | .longterm => cfg.capLongterm
  | .utility => cfg.capUtility
  | .reserve => cfg.capReserve

/-- Modelled from the spec: §4.4 eligibility — role matches, balance ≥ estimatedSize +
fee buffer, not in cooldown, dailyTxCount below the per-role cap, and for longterm
wallets the inter-transaction spacing. -/
def eligibleWallet (cfg : WalletConfig) (now : Nat) (role : WalletRole)
    (estimatedSize : ℚ) (w : Wallet) : Bool :=
  decide (w.role = role) &&
    decide (estimatedSize + cfg.feeBuffer ≤ w.balance) &&
    (match w.cooldownUntil with
      | some t => decide (t ≤ now)
      | none => true) &&
    decide (w.dailyTxCount < roleCap cfg role) &&
    (if role = WalletRole.longterm then decide (cfg.minSpacingLongterm ≤ now - w.lastUsedAt)
      else true)

/-- Modelled from the spec: §4.4 selectWallet — among eligible wallets, selection is
weighted inversely by recent usage, rendered here as choosing the least recently used
eligible wallet; none when no wallet is eligible. -/
def selectWallet (cfg : WalletConfig) (now : Nat) (role : WalletRole) (estimatedSize : ℚ)
    (wallets : List Wallet) : Option Wallet :=
  (wallets.filter (eligibleWallet cfg now role estimatedSize)).argmin (fun w => w.lastUsedAt)

/-- The (mintId, walletId) identity of a Position (§3: one live Position per pair). -/
def liveKey (p : Position) : Nat × Nat :=
  (p.mintId, p.walletId)

/-- Keys of the live Positions of a tracker state. -/
def liveKeys (ps : List Position) : List (Nat × Nat) :=
  (ps.filter (fun p => p.isLive)).map liveKey

/-- Is there already a live Position for this (mintId, walletId) pair? -/
def hasLiveDuplicate (ps : List Position) (p : Position) : Bool :=
  ps.any (fun q => q.isLive && decide (q.mintId = p.mintId) && decide (q.walletId = p.walletId))

/-- Modelled from the spec: §3 — one live Position per (mintId, walletId) pair, an
invariant enforced at creation: a duplicate open request is dropped. -/
def openPosition (ps : List Position) (p : Position) : List Position :=
  if hasLiveDuplicate ps p then ps else p :: ps

/-- Close every Position of the given (mintId, walletId) pair. -/
def closePositionFor (ps : List Position) (m wId t : Nat) : List Position :=
  ps.map (fun q => if q.mintId = m ∧ q.walletId = wId then closeOut q t else q)

/-- The de-duplicated events that drive the Position collection. -/
inductive PipelineEvent where
  | openFill (p : Position)
  | closeFill (mintId walletId t : Nat)
  | marketTick (snap : MarketSnapshot)
deriving DecidableEq

/-- One pipeline step on the Position collection. -/
def applyPipelineEvent (cfg : TrackerConfig) (ps : List Position) :
    PipelineEvent → List Position
  | .openFill p => openPosition ps p
  | .closeFill m wId t => closePositionFor ps m wId t
  | .marketTick snap =>
    ps.map (fun q => if q.mintId = snap.mintId then processSnapshot cfg q snap else q)

/-- Replay an event stream from the empty Position collection. -/
def replayStream (cfg : TrackerConfig) (evs : List PipelineEvent) : List Position :=
  evs.foldl (applyPipelineEvent cfg) []

/-- A feature card of the HomePage showcase (src/App.jsx lines 165-190); the icon
component is identified by name. -/
structure Feature where
  icon : String
  title : String
  description : String
  color : String
deriving DecidableEq, Repr

/-- The four-element features array of HomePage (src/App.jsx lines 165-190). -/
def homeFeatures : List Feature :=
  [{ icon := "Shield", title := "MEV Protection",
     description := "Advanced front-running defense with 15-25% profit improvement",
     color := "from-green-500 to-emerald-600" },
   { icon := "Brain", title := "AI Analysis",
     description := "Machine learning-enhanced token analysis and risk assessment",
     color := "from-blue-500 to-cyan-600" },
   { icon := "Zap", title := "Lightning Execution",
     description := "Sub-second execution with optimal timing and slippage protection",
     color := "from-yellow-500 to-orange-600" },
   { icon := "Target", title := "Pump.fun Optimized",
     description := "Platform-specific bonding curve analysis and migration timing",
     color := "from-purple-500 to-pink-600" }]

/-- The HomePage component state: useState(0) for currentFeature (src/App.jsx line 163). -/
structure HomeState where
  currentFeature : Nat
deriving DecidableEq, Repr

def homeInit : HomeState :=
  { currentFeature := 0 }

/-- The events that update currentFeature: the 3-second interval tick (src/App.jsx
lines 192-197) and a click on one of the rendered feature cards (line 284), whose
index ranges over the features array. -/
inductive HomeEvent where
  | tick
  | clickFeature (i : Fin homeFeatures.length)

/-- State update of HomePage: tick sets (prev + 1) % features.length (line 194),
click sets the clicked card's index (line 284). -/
def stepHome (s : HomeState) : HomeEvent → HomeState
  | .tick => { currentFeature := (s.currentFeature + 1) % homeFeatures.length }
  | .clickFeature i => { currentFeature := i.val }

def runHome (evs : List HomeEvent) : HomeState :=
  evs.foldl stepHome homeInit

/-- One point of the performanceData mock chart series (src/App.jsx lines 41-49). -/
structure PerfPoint where
  time : String
  profit : ℚ
  trades : Nat
deriving DecidableEq, Repr

/-- The module-level constant performanceData (src/App.jsx lines 41-49). -/
def performanceData : List PerfPoint :=
  [{ time := "00:00", profit := 0, trades := 0 },
   { time := "02:00", profit := 125/10, trades := 3 },
   { time := "04:00", profit := 283/10, trades := 7 },
   { time := "06:00", profit := 457/10, trades := 12 },
   { time := "08:00", profit := 621/10, trades := 18 },
   { time := "10:00", profit := 789/10, trades := 24 },
   { time := "12:00", profit := 954/10, trades := 31 }]

/-- One point of the mevProtectionData mock series (src/App.jsx lines 51-57); the
source field named after the protection count is rendered protectedCount because
that word is reserved in Lean. -/
structure MevPoint where
  hour : String
  protectedCount : Nat
  attacks : Nat
deriving DecidableEq, Repr

/-- The module-level constant mevProtectionData (src/App.jsx lines 51-57). -/
def mevProtectionData : List MevPoint :=
  [{ hour := "18:00", protectedCount := 15, attacks := 3 },
   { hour := "19:00", protectedCount := 23, attacks := 5 },
   { hour := "20:00", protectedCount := 31, attacks := 7 },
   { hour := "21:00", protectedCount := 28, attacks := 4 },
   { hour := "22:00", protectedCount := 19, attacks := 2 }]

/-- A metric card of the Dashboard overview tab (src/App.jsx lines 389-394). -/
structure MetricCard where
  title : String
  value : String
  change : String
deriving DecidableEq, Repr

/-- The inline metric-card literals of the Dashboard overview tab (src/App.jsx
lines 389-394). -/
def dashboardMetrics : List MetricCard :=
  [{ title := "Total Profit", value := "$12,847", change := "+23.5%" },
   { title := "Active Positions", value := "3", change := "2 profitable" },
   { title := "Success Rate", value := "87.4%", change := "+5.2%" },
   { title := "MEV Protected", value := "156", change := "15 attacks blocked" }]

/-- The data displayed by the Dashboard overview: metric cards, the profit chart
series and the MEV chart series (src/App.jsx lines 386-448). -/
structure DashboardView where
  metrics : List MetricCard
  profitChart : List PerfPoint
  mevChart : List MevPoint
deriving DecidableEq, Repr

/-- The Dashboard component (src/App.jsx lines 367-448) takes no props and reads no
market feed; its charts and cards reference only module-level constants and inline
literals.  The parameters stand for the live market data and render time available in
the environment and are unused, mirroring the props-free component. -/
def dashboardRender (_feed : List MarketSnapshot) (_renderedAt : Nat) : DashboardView :=
  { metrics := dashboardMetrics, profitChart := performanceData,
    mevChart := mevProtectionData }

/-- The HomePage performance chart (src/App.jsx lines 308-327) likewise renders the
module-level performanceData constant whatever the environment holds. -/
def homeChartRender (_feed : List MarketSnapshot) (_renderedAt : Nat) : List PerfPoint :=
  performanceData

/-- Equal factor weights summing to exactly 1 (valid). -/
def evenWeights : FactorWeights :=
  { creatorHistory := 1/4, liquiditySetup := 1/4, communitySignals := 1/4,
    bondingCurve := 1/4 }

/-- A factor-weight vector summing to 2 (invalid). -/
def doubledWeights : FactorWeights :=
  { creatorHistory := 1/2, liquiditySetup := 1/2, communitySignals := 1/2,
    bondingCurve := 1/2 }

def demoScoringConfig : ScoringConfig :=
  { snipeWeights := evenWeights, longtermWeights := evenWeights, creatorRegistry := [] }

/-- A demonstration scoring configuration whose weights sum to 2 (invalid). -/
def badScoringConfig : ScoringConfig :=
  { snipeWeights := doubledWeights, longtermWeights := doubledWeights,
    creatorRegistry := [] }

/-- A demonstration token event with every factor source missing. -/
def demoTokenEvent : TokenEvent :=
  { mintId := 7, creator := 3, createdAt := 5, metadataQuality := none,
    initialLiquidity := none, source := "pumpportal" }

/-- The Score demoScoringConfig produces for demoTokenEvent with no snapshot:
every factor degraded to the neutral midpoint 5. -/
def demoScore : Score :=
  { mintId := 7
    compositeValue := 5
    factorBreakdown :=
      { creatorHistory := { value := 5, weight := 1/4, degraded := true }
        liquiditySetup := { value := 5, weight := 1/4, degraded := true }
        communitySignals := { value := 5, weight := 1/4, degraded := true }
        bondingCurve := { value := 5, weight := 1/4, degraded := true } }
    computedAt := 5 }

/-- A demonstration tracker configuration. -/
def demoTrackerConfig : TrackerConfig :=
  { trailingGap := 1/10, maxHoldSnipe := 120, maxHoldLongterm := 86400 }

/-- A demonstration open Position mirroring the spec's documented defaults: entry
price 1, stop loss 0.9, take-profit tiers at 1.25 (sell 50%) and 1.5. -/
def demoPosition : Position :=
  { id := 1, mintId := 7, walletId := 1, strategyTag := .snipe, entryPrice := 1,
    sizeBaseUnits := 4, remainingSizeBaseUnits := 4, state := .«open»,
    stopLossPrice := 9/10,
    takeProfitLevels := [{ price := 5/4, fraction := 1/2 }, { price := 3/2, fraction := 3/4 }],
    openedAt := 0, closedAt := none }

/-- A demonstration snapshot that crosses demoPosition's first take-profit tier. -/
def demoSnapshot : MarketSnapshot :=
  { mintId := 7, price := 13/10, depthAtLevels := [2, 5], bondingCurveProgress := some 4,
    whaleSentiment := none, observedAt := 30 }

/-- A demonstration wallet configuration. -/
def demoWalletConfig : WalletConfig :=
  { feeBuffer := 1/10, capSniping := 100, capLongterm := 20, capUtility := 50,
    capReserve := 5, minSpacingLongterm := 60 }

/-- A demonstration sniping wallet with ample balance. -/
def demoWallet : Wallet :=
  { id := 1, role := .sniping, balance := 10, reputationScore := 5, lastUsedAt := 0,
    dailyTxCount := 0, cooldownUntil := none }

theorem clampScore_nonneg (x : ℚ) : 0 ≤ clampScore x :=
  le_max_left 0 _

theorem clampScore_le_ten (x : ℚ) : clampScore x ≤ 10 :=
  max_le (by norm_num) (min_le_right _ _)

/-- C10: the Dashboard and HomePage charts and metric cards render only the
module-level constant arrays performanceData and mevProtectionData and inline
literals, taking no market-data input, so any two renders display identical data. -/
theorem dashboard_constant_render :
    (∀ feed1 t1 feed2 t2, dashboardRender feed1 t1 = dashboardRender feed2 t2) ∧
    (∀ feed t, (dashboardRender feed t).profitChart = performanceData ∧
      (dashboardRender feed t).mevChart = mevProtectionData ∧
      (dashboardRender feed t).metrics = dashboardMetrics) ∧
    (∀ feed1 t1 feed2 t2, homeChartRender feed1 t1 = homeChartRender feed2 t2) :=
  ⟨fun _ _ _ _ => rfl, fun _ _ => ⟨rfl, rfl, rfl⟩, fun _ _ _ _ => rfl⟩

/-- C9: in HomePage the currentFeature index starts at 0 and stays below the length
of the 4-element features array under every sequence of interval ticks and feature
card clicks, so the access features[currentFeature] is always valid. -/
theorem home_current_feature_in_range :
    (∀ evs : List HomeEvent, (runHome evs).currentFeature < homeFeatures.length) ∧
    homeFeatures.length = 4 ∧
    (∀ evs : List HomeEvent,
      (homeFeatures.get? (runHome evs).currentFeature).isSome = true) := by
  have hlen : homeFeatures.length = 4 := rfl
  have hstep : ∀ (s : HomeState) (e : HomeEvent),
      s.currentFeature < homeFeatures.length →
      (stepHome s e).currentFeature < homeFeatures.length := by
    intro s e _
    cases e with
    | tick => exact Nat.mod_lt _ (by rw [hlen]; norm_num)
    | clickFeature i => exact i.isLt
  have hrun : ∀ (evs : List HomeEvent) (s : HomeState),
      s.currentFeature < homeFeatures.length →
      (evs.foldl stepHome s).currentFeature < homeFeatures.length := by
    intro evs
    induction evs with
    | nil => intro s hs; simpa using hs
    | cons e rest ih => intro s hs; exact ih _ (hstep s e hs)
  have hbound : ∀ evs : List HomeEvent,
      (runHome evs).currentFeature < homeFeatures.length := by
    intro evs
    exact hrun evs homeInit (by rw [hlen]; norm_num [homeInit])
  refine ⟨hbound, hlen, fun evs => ?_⟩
  rw [List.get?_eq_get (hbound evs)]
  rfl

/-- C5: over any sequence of MarketSnapshot evaluations, the stop-loss price of a
Position is monotonically non-decreasing: each processSnapshot step may raise
stopLossPrice (trailing stop) but never lowers it. -/
theorem trailing_stop_monotone :
    (∀ cfg p snap, p.stopLossPrice ≤ (processSnapshot cfg p snap).stopLossPrice) ∧
    (∀ cfg snaps p, p.stopLossPrice ≤ (trackPosition cfg p snaps).stopLossPrice) := by
  have hstep : ∀ cfg p snap,
      p.stopLossPrice ≤ (processSnapshot cfg p snap).stopLossPrice := by
    intro cfg p snap
    unfold processSnapshot trailingOrTimeout closeOut
    split
    · split
      · exact le_refl _
      · split
        · split
          · exact le_refl _
          · split
            · exact le_max_left _ _
            · split
              · exact le_refl _
              · exact le_refl _
        · split
          · exact le_max_left _ _
          · split
            · exact le_refl _
            · exact le_refl _
    · exact le_refl _
  refine ⟨hstep, ?_⟩
  intro cfg snaps
  induction snaps with
  | nil => intro p; simp [trackPosition]
  | cons s rest ih =>
    intro p
    have h2 := ih (processSnapshot cfg p s)
    have h1 := hstep cfg p s
    simpa [trackPosition] using le_trans h1 h2

/-- C2: every Signal approved by the Risk Manager gets adjustedSize ≤ the requested
targetSizeBaseUnits, and the mint's existing exposure plus adjustedSize stays within
the per-mint concentration limit (maxPerMintFraction of portfolio value) measured at
approval time. -/
theorem approved_decision_within_limits :
    ∀ cfg st sig, (evaluate cfg st sig).1.approved = true →
      (evaluate cfg st sig).1.adjustedSize ≤ sig.targetSizeBaseUnits ∧
      mintExposure st sig.mintId + (evaluate cfg st sig).1.adjustedSize ≤
        cfg.maxPerMintFraction * st.portfolioValue := by
  intro cfg st sig h
  unfold evaluate at h ⊢
  split_ifs at h ⊢ with h1 h2 h3 h4 h5
  · simp [rejectDecision] at h
  · simp [rejectDecision] at h
  · simp [rejectDecision] at h
  · simp [rejectDecision] at h
  · simp [rejectDecision] at h
  · push_neg at h4
    refine ⟨min_le_left _ _, ?_⟩
    exact le_trans (add_le_add_left (min_le_left _ _) _) h4

/-- C2 witness: a concrete approval within the limits. -/
theorem approved_decision_within_limits_witness :
    (evaluate demoRiskConfig cleanRiskState demoSignal).1.adjustedSize ≤
      demoSignal.targetSizeBaseUnits ∧
    mintExposure cleanRiskState demoSignal.mintId +
      (evaluate demoRiskConfig cleanRiskState demoSignal).1.adjustedSize ≤
      demoRiskConfig.maxPerMintFraction * cleanRiskState.portfolioValue :=
  approved_decision_within_limits demoRiskConfig cleanRiskState demoSignal (by
    norm_num [evaluate, cleanRiskState, demoRiskConfig, demoSignal, mintExposure,
      tagExposure, dynamicSizeLimit, rejectDecision, reserveCapacity, List.lookup])

/-- C3: every Score the Scoring Engine produces has compositeValue in [0,10], and
scoring is deterministic: identical TokenEvent and MarketSnapshot inputs yield the
identical Score. -/
theorem score_in_range_and_deterministic :
    (∀ cfg tag ev snap sc, scoreToken cfg tag ev snap = .ok sc →
      0 ≤ sc.compositeValue ∧ sc.compositeValue ≤ 10) ∧
    (∀ cfg tag ev ev2 snap snap2, ev = ev2 → snap = snap2 →
      scoreToken cfg tag ev snap = scoreToken cfg tag ev2 snap2) := by
  constructor
  · intro cfg tag ev snap sc h
    simp only [scoreToken] at h
    split at h
    · simp only [Except.ok.injEq] at h
      subst h
      exact ⟨clampScore_nonneg _, clampScore_le_ten _⟩
    · exact absurd h (by simp)
  · intro cfg tag ev ev2 snap snap2 h1 h2
    subst h1
    subst h2
    rfl

/-- C3 witness: a concrete scored token lies inside [0,10]. -/
theorem score_in_range_and_deterministic_witness :
    0 ≤ demoScore.compositeValue ∧ demoScore.compositeValue ≤ 10 :=
  score_in_range_and_deterministic.1 demoScoringConfig .snipe demoTokenEvent none
    demoScore (by
      norm_num [scoreToken, weightsValid, FactorWeights.total, weightsFor,
        gatherFactors, evalFactor, clampScore, demoScoringConfig, evenWeights,
        demoTokenEvent, demoScore, List.lookup])

/-- C8: scoring fails with a ConfigurationError exactly when the strategyTag's factor
weights do not sum to 1.0 within tolerance 0.01; with valid weights scoring always
succeeds, and any missing factor input is degraded to the neutral midpoint 5.0 and
flagged degraded in factorBreakdown instead of failing the score. -/
theorem scoring_config_error_iff :
    (∀ cfg tag ev snap,
      (∃ e, scoreToken cfg tag ev snap = .error e) ↔
        ¬ weightsValid (weightsFor cfg tag)) ∧
    (∀ cfg tag ev snap, weightsValid (weightsFor cfg tag) →
      ∃ sc, scoreToken cfg tag ev snap = .ok sc) ∧
    (∀ cfg tag ev snap sc, scoreToken cfg tag ev snap = .ok sc →
      ((gatherFactors cfg ev snap).creatorHistory = none →
        sc.factorBreakdown.creatorHistory.value = 5 ∧
        sc.factorBreakdown.creatorHistory.degraded = true) ∧
      ((gatherFactors cfg ev snap).liquiditySetup = none →
        sc.factorBreakdown.liquiditySetup.value = 5 ∧
        sc.factorBreakdown.liquiditySetup.degraded = true) ∧
      ((gatherFactors cfg ev snap).communitySignals = none →
        sc.factorBreakdown.communitySignals.value = 5 ∧
        sc.factorBreakdown.communitySignals.degraded = true) ∧
      ((gatherFactors cfg ev snap).bondingCurve = none →
        sc.factorBreakdown.bondingCurve.value = 5 ∧
        sc.factorBreakdown.bondingCurve.degraded = true)) := by
  refine ⟨?_, ?_, ?_⟩
  · intro cfg tag ev snap
    simp only [scoreToken]
    split
    · next hv => simp [hv]
    · next hv => simp [hv]
  · intro cfg tag ev snap hv
    simp only [scoreToken]
    split
    · exact ⟨_, rfl⟩
    · next hv2 => exact absurd hv hv2
  · intro cfg tag ev snap sc h
    simp only [scoreToken] at h
    split at h
    · simp only [Except.ok.injEq] at h
      subst h
      refine ⟨fun hn => ?_, fun hn => ?_, fun hn => ?_, fun hn => ?_⟩ <;>
        simp [evalFactor, hn]
    · exact absurd h (by simp)

/-- C8 witness: invalid weights raise the ConfigurationError, and a missing factor in
a validly configured run is degraded to 5 instead of failing. -/
theorem scoring_config_error_iff_witness :
    (∃ e, scoreToken badScoringConfig .snipe demoTokenEvent none = .error e) ∧
    (demoScore.factorBreakdown.creatorHistory.value = 5 ∧
      demoScore.factorBreakdown.creatorHistory.degraded = true) :=
  ⟨(scoring_config_error_iff.1 badScoringConfig .snipe demoTokenEvent none).mpr (by
      norm_num [weightsValid, FactorWeights.total, weightsFor, badScoringConfig,
        doubledWeights]),
    (scoring_config_error_iff.2.2 demoScoringConfig .snipe demoTokenEvent none
        demoScore (by
          norm_num [scoreToken, weightsValid, FactorWeights.total, weightsFor,
            gatherFactors, evalFactor, clampScore, demoScoringConfig, evenWeights,
            demoTokenEvent, demoScore, List.lookup])).1 (by
      norm_num [gatherFactors, demoScoringConfig, demoTokenEvent, List.lookup])⟩

theorem processSnapshot_remaining_le (cfg : TrackerConfig) (p : Position)
    (snap : MarketSnapshot) (h0 : 0 ≤ p.remainingSizeBaseUnits)
    (hfr : ∀ t ∈ p.takeProfitLevels, 0 ≤ t.fraction) :
    (processSnapshot cfg p snap).remainingSizeBaseUnits ≤ p.remainingSizeBaseUnits := by
  unfold processSnapshot trailingOrTimeout closeOut
  split
  · split
    · exact h0
    · split
      · next tier rest htp =>
        split
        · exact sub_le_self _ (mul_nonneg (hfr tier (by rw [htp]; exact List.mem_cons_self _ _)) h0)
        · split
          · exact le_refl _
          · split
            · exact h0
            · exact le_refl _
      · split
        · exact le_refl _
        · split
          · exact h0
          · exact le_refl _
  · exact le_refl _

theorem processSnapshot_size_eq (cfg : TrackerConfig) (p : Position)
    (snap : MarketSnapshot) :
    (processSnapshot cfg p snap).sizeBaseUnits = p.sizeBaseUnits := by
  unfold processSnapshot trailingOrTimeout closeOut
  split
  · split
    · rfl
    · split
      · split
        · rfl
        · split
          · rfl
          · split
            · rfl
            · rfl
      · split
        · rfl
        · split
          · rfl
          · rfl
  · rfl

/-- C4: a live Open Position whose first take-profit tier is crossed (and whose hard
stop has not fired) transitions to PartiallyExited with remainingSizeBaseUnits
reduced by exactly the tier's configured fraction; moreover a processSnapshot step
never increases remainingSizeBaseUnits and never changes sizeBaseUnits, so a
PartiallyExited Position never regresses back to its full Open size. -/
theorem take_profit_partial_exit_no_regress :
    (∀ cfg p snap tier rest, p.state = PositionState.«open» →
      p.takeProfitLevels = tier :: rest →
      ¬ snap.price ≤ p.stopLossPrice →
      tier.price ≤ snap.price →
      (processSnapshot cfg p snap).state = PositionState.partiallyExited ∧
      (processSnapshot cfg p snap).remainingSizeBaseUnits =
        p.remainingSizeBaseUnits - tier.fraction * p.remainingSizeBaseUnits) ∧
    (∀ cfg p snap, 0 ≤ p.remainingSizeBaseUnits →
      (∀ t ∈ p.takeProfitLevels, 0 ≤ t.fraction) →
      (processSnapshot cfg p snap).remainingSizeBaseUnits ≤ p.remainingSizeBaseUnits) ∧
    (∀ cfg p snap, (processSnapshot cfg p snap).sizeBaseUnits = p.sizeBaseUnits) ∧
    (∀ cfg p snap, 0 ≤ p.remainingSizeBaseUnits →
      (∀ t ∈ p.takeProfitLevels, 0 ≤ t.fraction) →
      p.state = PositionState.partiallyExited →
      p.remainingSizeBaseUnits < p.sizeBaseUnits →
      (processSnapshot cfg p snap).remainingSizeBaseUnits <
        (processSnapshot cfg p snap).sizeBaseUnits) := by
  refine ⟨?_, processSnapshot_remaining_le, processSnapshot_size_eq, ?_⟩
  · intro cfg p snap tier rest hopen htp hsl htier
    have hlive : p.isLive = true := by
      simp [Position.isLive, hopen]
    unfold processSnapshot
    rw [if_pos hlive, if_neg hsl, htp]
    dsimp only
    rw [if_pos htier]
    exact ⟨rfl, rfl⟩
  · intro cfg p snap h0 hfr _ hlt
    rw [processSnapshot_size_eq]
    exact lt_of_le_of_lt (processSnapshot_remaining_le cfg p snap h0 hfr) hlt

/-- C4 witness: the demonstration Position crosses tier 1 at price 1.3 and moves to
PartiallyExited with its remaining size cut by the configured 50% fraction. -/
theorem take_profit_partial_exit_no_regress_witness :
    (processSnapshot demoTrackerConfig demoPosition demoSnapshot).state =
      PositionState.partiallyExited ∧
    (processSnapshot demoTrackerConfig demoPosition demoSnapshot).remainingSizeBaseUnits =
      demoPosition.remainingSizeBaseUnits -
        (1/2 : ℚ) * demoPosition.remainingSizeBaseUnits :=
  take_profit_partial_exit_no_regress.1 demoTrackerConfig demoPosition demoSnapshot
    { price := 5/4, fraction := 1/2 } [{ price := 3/2, fraction := 3/4 }]
    (by norm_num [demoPosition]) (by norm_num [demoPosition])
    (by norm_num [demoPosition, demoSnapshot]) (by norm_num [demoSnapshot])

/-- C6: selectWallet never returns a wallet whose balance is below estimatedSize plus
the fee buffer; every returned wallet comes from the input pool, matches the role and
satisfies the balance floor. -/
theorem select_wallet_balance_sufficient :
    ∀ cfg now role estimatedSize wallets w,
      selectWallet cfg now role estimatedSize wallets = some w →
      estimatedSize + cfg.feeBuffer ≤ w.balance ∧ w ∈ wallets ∧ w.role = role := by
  intro cfg now role sz ws w h
  unfold selectWallet at h
  have hmem := List.argmin_mem (Option.mem_def.mpr h)
  rw [List.mem_filter] at hmem
  obtain ⟨hw, helig⟩ := hmem
  simp only [eligibleWallet, Bool.and_eq_true, decide_eq_true_eq] at helig
  exact ⟨helig.1.1.1.2, hw, helig.1.1.1.1⟩

/-- C6 witness: the demonstration wallet is selected and covers size plus buffer. -/
theorem select_wallet_balance_sufficient_witness :
    (1 : ℚ) + demoWalletConfig.feeBuffer ≤ demoWallet.balance ∧
    demoWallet ∈ [demoWallet] ∧ demoWallet.role = WalletRole.sniping :=
  select_wallet_balance_sufficient demoWalletConfig 0 .sniping 1 [demoWallet]
    demoWallet (by
      have helig : eligibleWallet demoWalletConfig 0 WalletRole.sniping 1 demoWallet = true := by
        norm_num [eligibleWallet, roleCap, demoWalletConfig, demoWallet]
        decide
      simp [selectWallet, List.filter_cons, helig])

theorem evaluate_tripped_eq (cfg : RiskConfig) (st : PortfolioRiskState) (sig : Signal)
    (h : st.circuitBreakerTripped = true) :
    evaluate cfg st sig = (rejectDecision sig "circuit_breaker", st) := by
  unfold evaluate
  rw [if_pos h]

theorem evaluate_tripped_mono (cfg : RiskConfig) (st : PortfolioRiskState) (sig : Signal)
    (h : st.circuitBreakerTripped = true) :
    (evaluate cfg st sig).2.circuitBreakerTripped = true := by
  rw [evaluate_tripped_eq cfg st sig h]
  exact h

theorem evaluate_count_eq (cfg : RiskConfig) (st : PortfolioRiskState) (sig : Signal) :
    (evaluate cfg st sig).2.consecutiveLossCount = st.consecutiveLossCount := by
  unfold evaluate
  split_ifs <;> simp [tripBreaker, reserveCapacity]

theorem recordPositionClose_threshold_trips (cfg : RiskConfig) (st : PortfolioRiskState)
    (pnl : ℚ)
    (h : cfg.consecutiveLossThreshold ≤ (recordPositionClose cfg st pnl).consecutiveLossCount) :
    (recordPositionClose cfg st pnl).circuitBreakerTripped = true := by
  simp only [recordPositionClose] at h ⊢
  simp only [Bool.or_eq_true, decide_eq_true_eq]
  exact Or.inl (Or.inr h)

theorem recordPositionClose_tripped_mono (cfg : RiskConfig) (st : PortfolioRiskState)
    (pnl : ℚ) (h : st.circuitBreakerTripped = true) :
    (recordPositionClose cfg st pnl).circuitBreakerTripped = true := by
  simp [recordPositionClose, h]

theorem runRiskOps_tripped_latch (cfg : RiskConfig) :
    ∀ (ops : List RiskOp) (st : PortfolioRiskState), st.circuitBreakerTripped = true →
      (∀ op ∈ ops, op ≠ RiskOp.manualReset) →
      (runRiskOps cfg st ops).circuitBreakerTripped = true := by
  intro ops
  induction ops with
  | nil => intro st h _; simpa [runRiskOps] using h
  | cons op rest ih =>
    intro st h hops
    have hstep : (applyRiskOp cfg st op).circuitBreakerTripped = true := by
      cases op with
      | evalSignal sig => exact evaluate_tripped_mono cfg st sig h
      | closePosition pnl => exact recordPositionClose_tripped_mono cfg st pnl h
      | manualReset => exact absurd rfl (hops _ (List.mem_cons_self _ _))
    have hrest := ih (applyRiskOp cfg st op) hstep
      (fun o ho => hops o (List.mem_cons_of_mem _ ho))
    simpa [runRiskOps] using hrest

theorem applyRiskOp_threshold_inv (cfg : RiskConfig) (op : RiskOp)
    (st : PortfolioRiskState) (hth : 0 < cfg.consecutiveLossThreshold)
    (hinv : cfg.consecutiveLossThreshold ≤ st.consecutiveLossCount →
      st.circuitBreakerTripped = true) :
    cfg.consecutiveLossThreshold ≤ (applyRiskOp cfg st op).consecutiveLossCount →
      (applyRiskOp cfg st op).circuitBreakerTripped = true := by
  cases op with
  | evalSignal sig =>
    intro hcount
    rw [show applyRiskOp cfg st (RiskOp.evalSignal sig) = (evaluate cfg st sig).2 from rfl,
      evaluate_count_eq] at hcount
    exact evaluate_tripped_mono cfg st sig (hinv hcount)
  | closePosition pnl =>
    exact fun hc => recordPositionClose_threshold_trips cfg st pnl hc
  | manualReset =>
    intro hc
    simp only [applyRiskOp, manualResetCircuitBreaker] at hc
    omega

theorem runRiskOps_threshold_inv (cfg : RiskConfig)
    (hth : 0 < cfg.consecutiveLossThreshold) :
    ∀ (ops : List RiskOp) (st : PortfolioRiskState),
      (cfg.consecutiveLossThreshold ≤ st.consecutiveLossCount →
        st.circuitBreakerTripped = true) →
      cfg.consecutiveLossThreshold ≤ (runRiskOps cfg st ops).consecutiveLossCount →
      (runRiskOps cfg st ops).circuitBreakerTripped = true := by
  intro ops
  induction ops with
  | nil =>
    intro st hinv h
    simp only [runRiskOps, List.foldl_nil] at h ⊢
    exact hinv h
  | cons op rest ih =>
    intro st hinv h
    have hinv2 := applyRiskOp_threshold_inv cfg op st hth hinv
    have hrest := ih (applyRiskOp cfg st op) hinv2
    simp only [runRiskOps, List.foldl_cons] at h ⊢
    exact hrest (by simpa [runRiskOps] using h)

theorem demo_loss_streak_tripped :
    (runRiskOps demoRiskConfig cleanRiskState
      (List.replicate 5 (RiskOp.closePosition (-1)))).circuitBreakerTripped = true := by
  norm_num [runRiskOps, List.replicate, applyRiskOp, recordPositionClose,
    cleanRiskState, demoRiskConfig]

/-- C1: once consecutiveLossCount reaches the configured threshold (which latches
circuitBreakerTripped), every evaluate call rejects with reason circuit_breaker and
leaves the state unchanged; the tripped flag survives every operation other than
manualResetCircuitBreaker; every reachable state with the threshold reached has the
breaker tripped; and the particular scenario of 5 consecutive losing Positions
against threshold 5 trips the breaker and makes every subsequent evaluate reject
with circuit_breaker. -/
theorem circuit_breaker_latched_until_manual_reset :
    (∀ cfg st sig, st.circuitBreakerTripped = true →
      (evaluate cfg st sig).1.approved = false ∧
      (evaluate cfg st sig).1.reason = "circuit_breaker" ∧
      (evaluate cfg st sig).2 = st) ∧
    (∀ cfg st pnl,
      cfg.consecutiveLossThreshold ≤ (recordPositionClose cfg st pnl).consecutiveLossCount →
      (recordPositionClose cfg st pnl).circuitBreakerTripped = true) ∧
    (∀ cfg st ops, st.circuitBreakerTripped = true →
      (∀ op ∈ ops, op ≠ RiskOp.manualReset) →
      (runRiskOps cfg st ops).circuitBreakerTripped = true) ∧
    (∀ cfg ops, 0 < cfg.consecutiveLossThreshold →
      cfg.consecutiveLossThreshold ≤ (runRiskOps cfg cleanRiskState ops).consecutiveLossCount →
      (runRiskOps cfg cleanRiskState ops).circuitBreakerTripped = true) ∧
    ((runRiskOps demoRiskConfig cleanRiskState
        (List.replicate 5 (RiskOp.closePosition (-1)))).circuitBreakerTripped = true ∧
      ∀ sig,
        (evaluate demoRiskConfig
          (runRiskOps demoRiskConfig cleanRiskState
            (List.replicate 5 (RiskOp.closePosition (-1)))) sig).1.approved = false ∧
        (evaluate demoRiskConfig
          (runRiskOps demoRiskConfig cleanRiskState
            (List.replicate 5 (RiskOp.closePosition (-1)))) sig).1.reason =
          "circuit_breaker") := by
  have hrej : ∀ cfg st sig, st.circuitBreakerTripped = true →
      (evaluate cfg st sig).1.approved = false ∧
      (evaluate cfg st sig).1.reason = "circuit_breaker" ∧
      (evaluate cfg st sig).2 = st := by
    intro cfg st sig h
    rw [evaluate_tripped_eq cfg st sig h]
    exact ⟨rfl, rfl, rfl⟩
  refine ⟨hrej, recordPositionClose_threshold_trips,
    fun cfg st ops h hops => runRiskOps_tripped_latch cfg ops st h hops,
    ?_, demo_loss_streak_tripped, ?_⟩
  · intro cfg ops hth h
    refine runRiskOps_threshold_inv cfg hth ops cleanRiskState ?_ h
    intro hcount
    exfalso
    have : cleanRiskState.consecutiveLossCount = 0 := rfl
    omega
  · intro sig
    have h := hrej demoRiskConfig _ sig demo_loss_streak_tripped
    exact ⟨h.1, h.2.1⟩

/-- C1 witness: with the breaker tripped, the demonstration evaluate call rejects
with reason circuit_breaker. -/
theorem circuit_breaker_latched_until_manual_reset_witness :
    (evaluate demoRiskConfig (tripBreaker cleanRiskState) demoSignal).1.approved = false ∧
    (evaluate demoRiskConfig (tripBreaker cleanRiskState) demoSignal).1.reason =
      "circuit_breaker" :=
  ⟨(circuit_breaker_latched_until_manual_reset.1 demoRiskConfig
      (tripBreaker cleanRiskState) demoSignal rfl).1,
    (circuit_breaker_latched_until_manual_reset.1 demoRiskConfig
      (tripBreaker cleanRiskState) demoSignal rfl).2.1⟩

theorem liveKeys_cons (p : Position) (ps : List Position) :
    liveKeys (p :: ps) =
      if p.isLive = true then liveKey p :: liveKeys ps else liveKeys ps := by
  simp only [liveKeys, List.filter_cons]
  split
  · simp
  · rfl

theorem liveKeys_map_sublist (f : Position → Position)
    (hkey : ∀ q, liveKey (f q) = liveKey q)
    (hlive : ∀ q, (f q).isLive = true → q.isLive = true) :
    ∀ ps : List Position, (liveKeys (ps.map f)).Sublist (liveKeys ps) := by
  intro ps
  induction ps with
  | nil => simp [liveKeys]
  | cons q ps ih =>
    rw [List.map_cons, liveKeys_cons, liveKeys_cons]
    by_cases h : (f q).isLive = true
    · rw [if_pos h, if_pos (hlive q h), hkey q]
      exact ih.cons₂ _
    · rw [if_neg h]
      split
      · exact ih.cons _
      · exact ih

theorem closeOut_key (q : Position) (t : Nat) : liveKey (closeOut q t) = liveKey q :=
  rfl

theorem closeOut_not_live (q : Position) (t : Nat) : (closeOut q t).isLive = false := by
  simp [closeOut, Position.isLive]

theorem processSnapshot_key (cfg : TrackerConfig) (q : Position) (snap : MarketSnapshot) :
    liveKey (processSnapshot cfg q snap) = liveKey q := by
  unfold processSnapshot trailingOrTimeout closeOut liveKey
  split
  · split
    · rfl
    · split
      · split
        · rfl
        · split
          · rfl
          · split
            · rfl
            · rfl
      · split
        · rfl
        · split
          · rfl
          · rfl
  · rfl

theorem processSnapshot_live (cfg : TrackerConfig) (q : Position) (snap : MarketSnapshot)
    (h : (processSnapshot cfg q snap).isLive = true) : q.isLive = true := by
  by_cases hq : q.isLive = true
  · exact hq
  · unfold processSnapshot at h
    rw [if_neg hq] at h
    exact absurd h hq

theorem openPosition_nodup (ps : List Position) (p : Position)
    (h : (liveKeys ps).Nodup) : (liveKeys (openPosition ps p)).Nodup := by
  unfold openPosition
  split
  · exact h
  · next hdup =>
    rw [liveKeys_cons]
    split
    · refine List.nodup_cons.mpr ⟨?_, h⟩
      intro hmem
      rcases List.mem_map.mp hmem with ⟨q, hqmem, hqkey⟩
      rcases List.mem_filter.mp hqmem with ⟨hqps, hqlive⟩
      apply hdup
      unfold hasLiveDuplicate
      rw [List.any_eq_true]
      refine ⟨q, hqps, ?_⟩
      have h1 : q.mintId = p.mintId := congrArg Prod.fst hqkey
      have h2 : q.walletId = p.walletId := congrArg Prod.snd hqkey
      simp [hqlive, h1, h2]
    · exact h

theorem applyPipelineEvent_nodup (cfg : TrackerConfig) (ps : List Position)
    (e : PipelineEvent) (h : (liveKeys ps).Nodup) :
    (liveKeys (applyPipelineEvent cfg ps e)).Nodup := by
  cases e with
  | openFill p => exact openPosition_nodup ps p h
  | closeFill m wId t =>
    refine List.Nodup.sublist (liveKeys_map_sublist _ ?_ ?_ ps) h
    · intro q
      by_cases hc : q.mintId = m ∧ q.walletId = wId
      · rw [if_pos hc]
        rfl
      · rw [if_neg hc]
    · intro q hq
      by_cases hc : q.mintId = m ∧ q.walletId = wId
      · rw [if_pos hc, closeOut_not_live] at hq
        exact absurd hq (by simp)
      · rwa [if_neg hc] at hq
  | marketTick snap =>
    refine List.Nodup.sublist (liveKeys_map_sublist _ ?_ ?_ ps) h
    · intro q
      by_cases hc : q.mintId = snap.mintId
      · rw [if_pos hc]
        exact processSnapshot_key cfg q snap
      · rw [if_neg hc]
    · intro q hq
      by_cases hc : q.mintId = snap.mintId
      · rw [if_pos hc] at hq
        exact processSnapshot_live cfg q snap hq
      · rwa [if_neg hc] at hq

/-- C7: at most one live Position per (mintId, walletId) pair — the invariant is
enforced at Position creation, preserved by every pipeline operation, holds at every
state reachable by replaying an event stream, and in particular replaying the same
de-duplicated stream twice produces no duplicate live Positions. -/
theorem no_duplicate_live_positions :
    (∀ cfg ps e, (liveKeys ps).Nodup → (liveKeys (applyPipelineEvent cfg ps e)).Nodup) ∧
    (∀ cfg evs, (liveKeys (replayStream cfg evs)).Nodup) ∧
    (∀ cfg evs, (liveKeys (replayStream cfg (evs ++ evs))).Nodup) := by
  have hfold : ∀ cfg (evs : List PipelineEvent) ps, (liveKeys ps).Nodup →
      (liveKeys (evs.foldl (applyPipelineEvent cfg) ps)).Nodup := by
    intro cfg evs
    induction evs with
    | nil => intro ps h; simpa using h
    | cons e rest ih =>
      intro ps h
      exact ih _ (applyPipelineEvent_nodup cfg ps e h)
  exact ⟨fun cfg ps e h => applyPipelineEvent_nodup cfg ps e h,
    fun cfg evs => hfold cfg evs [] (by simp [liveKeys]),
    fun cfg evs => hfold cfg (evs ++ evs) [] (by simp [liveKeys])⟩

/-- C7 witness: one concrete pipeline step from a duplicate-free state keeps the
live keys duplicate-free. -/
theorem no_duplicate_live_positions_witness :
    (liveKeys (applyPipelineEvent demoTrackerConfig []
      (PipelineEvent.openFill demoPosition))).Nodup :=
  no_duplicate_live_positions.1 demoTrackerConfig [] (PipelineEvent.openFill demoPosition)
    (by simp [liveKeys])

end PumpBot


